import Mathlib

/-!
Verification of the session-storage and adapter layer of the mcp-redis
repository, as a shallow embedding in Lean 4.

The embedded code:
* `SqliteStorage` (sqlite-storage source file): the sessions table is a list
  of rows `(sessionId, identity, data, expiresAt)`; the JSON (de)serialization
  of a record is modelled as the identity on a `SessionData` value, which is
  faithful for JSON-representable records.  `Date.now()` is passed in
  explicitly as a millisecond timestamp `now : Nat`.
* `sanitizeServerLabel` (src/shared/utils.ts): the two regex passes are
  embedded as a character map followed by a run-collapsing pass on the list
  of characters.
* `CopilotKitAdapter` and `AguiAdapter` tool collection: an `MCPClient` is
  modelled by its observable interface (`isConnected`, `getServerId`, and the
  outcome that a call to `listTools` would produce); JSON schemas are opaque
  string blobs.
-/

set_option autoImplicit false

/-- Transport type of a session (`sse | streamable_http | auto`). -/
inductive TransportType where
  | sse
  | streamableHttp
  | auto
deriving DecidableEq, Repr

/-- A session record (`SessionData` in the source).  OAuth tokens and client
information are opaque JSON blobs for the purposes of the storage layer. -/
structure SessionData where
  sessionId : String
  identity : String
  serverId : String
  serverName : String
  serverUrl : String
  callbackUrl : String
  transportType : TransportType
  active : Bool
  tokens : Option String
  clientInformation : Option String
deriving DecidableEq, Repr

/-- A `Partial<SessionData>`: every field optional; a `some` field overwrites
the current record's field on merge, a `none` field is absent. -/
structure SessionPatch where
  sessionId : Option String := none
  identity : Option String := none
  serverId : Option String := none
  serverName : Option String := none
  serverUrl : Option String := none
  callbackUrl : Option String := none
  transportType : Option TransportType := none
  active : Option Bool := none
  tokens : Option (Option String) := none
  clientInformation : Option (Option String) := none
deriving DecidableEq, Repr

/-- The JS spread `{ ...currentSession, ...data }`: shallow field overwrite. -/
def mergeSession (cur : SessionData) (p : SessionPatch) : SessionData :=
  { sessionId := p.sessionId.getD cur.sessionId
    identity := p.identity.getD cur.identity
    serverId := p.serverId.getD cur.serverId
    serverName := p.serverName.getD cur.serverName
    serverUrl := p.serverUrl.getD cur.serverUrl
    callbackUrl := p.callbackUrl.getD cur.callbackUrl
    transportType := p.transportType.getD cur.transportType
    active := p.active.getD cur.active
    tokens := p.tokens.getD cur.tokens
    clientInformation := p.clientInformation.getD cur.clientInformation }

/-- One row of the sqlite `mcp_sessions` table:
`sessionId TEXT PRIMARY KEY, identity TEXT NOT NULL, data TEXT NOT NULL,
expiresAt INTEGER` (nullable). -/
structure SessionRow where
  sessionId : String
  identity : String
  data : SessionData
  expiresAt : Option Nat
deriving DecidableEq, Repr

/-- The contents of the sqlite table, in insertion order. -/
abbrev SqliteStore := List SessionRow

/-- Errors thrown by the storage operations. -/
inductive StorageError where
  /-- `identity and sessionId required` (thrown when either is falsy). -/
  | requiredFields
  /-- `Session N already exists` (primary-key constraint). -/
  | duplicateSession (sessionId : String)
  /-- `Session N not found for identity U`. -/
  | notFound (sessionId : String) (identity : String)
deriving DecidableEq, Repr

/-- The JS expression `ttl ? Date.now() + ttl * 1000 : null`; note that a ttl
of `0` is falsy in JS, so it yields `null` just like an absent ttl. -/
def ttlToExpiresAt (now : Nat) (ttl : Option Nat) : Option Nat :=
  match ttl with
  | none => none
  | some t => if t = 0 then none else some (now + t * 1000)

/-- The row filter `WHERE sessionId = ? AND identity = ?`. -/
def rowMatches (sessionId identity : String) (r : SessionRow) : Bool :=
  r.sessionId == sessionId && r.identity == identity

/-- `SqliteStorage.createSession(session, ttl?)`: rejects a falsy sessionId or
identity, then `INSERT`s; the primary-key constraint on `sessionId` makes the
insert fail with a duplicate-session error when a row with the same
`sessionId` already exists (the failed insert changes nothing). -/
def createSession (st : SqliteStore) (now : Nat) (session : SessionData)
    (ttl : Option Nat) : Except StorageError SqliteStore :=
  if session.sessionId = "" ∨ session.identity = "" then
    .error .requiredFields
  else if st.any (fun r => r.sessionId == session.sessionId) then
    .error (.duplicateSession session.sessionId)
  else
    .ok (st ++ [{ sessionId := session.sessionId, identity := session.identity,
                  data := session, expiresAt := ttlToExpiresAt now ttl }])

/-- `SqliteStorage.getSession(identity, sessionId)`:
`SELECT data FROM t WHERE sessionId = ? AND identity = ?`, `JSON.parse`d;
note there is no condition on `expiresAt`. -/
def getSession (st : SqliteStore) (identity sessionId : String) :
    Option SessionData :=
  (st.find? (rowMatches sessionId identity)).map (·.data)

/-- `SqliteStorage.getIdentitySessionsData(identity)`:
`SELECT data FROM t WHERE identity = ?`; no condition on `expiresAt` and no
condition on the record's `active` flag. -/
def getIdentitySessionsData (st : SqliteStore) (identity : String) :
    List SessionData :=
  (st.filter (fun r => r.identity == identity)).map (·.data)

/-- `SqliteStorage.getIdentityMcpSessions(identity)`:
`SELECT sessionId FROM t WHERE identity = ?`. -/
def getIdentityMcpSessions (st : SqliteStore) (identity : String) :
    List String :=
  (st.filter (fun r => r.identity == identity)).map (·.sessionId)

/-- `SqliteStorage.updateSession(identity, sessionId, data, ttl?)`: rejects
falsy arguments, looks the current record up via `getSession`, fails with
not-found when absent, otherwise `UPDATE`s the matching row with the shallow
merge and a freshly computed `expiresAt` (null when no ttl is given). -/
def updateSession (st : SqliteStore) (now : Nat) (identity sessionId : String)
    (patch : SessionPatch) (ttl : Option Nat) : Except StorageError SqliteStore :=
  if sessionId = "" ∨ identity = "" then
    .error .requiredFields
  else
    match getSession st identity sessionId with
    | none => .error (.notFound sessionId identity)
    | some cur =>
      .ok (st.map (fun r =>
        if rowMatches sessionId identity r then
          { r with data := mergeSession cur patch,
                   expiresAt := ttlToExpiresAt now ttl }
        else r))

/-- `SqliteStorage.removeSession(identity, sessionId)`:
`DELETE FROM t WHERE sessionId = ? AND identity = ?`; deleting zero rows is
not an error, so the operation is total. -/
def removeSession (st : SqliteStore) (identity sessionId : String) :
    SqliteStore :=
  st.filter (fun r => !(rowMatches sessionId identity r))

/-- `SqliteStorage.cleanupExpiredSessions()`:
`DELETE FROM t WHERE expiresAt IS NOT NULL AND expiresAt < now`. -/
def cleanupExpiredSessions (st : SqliteStore) (now : Nat) : SqliteStore :=
  st.filter (fun r =>
    match r.expiresAt with
    | none => true
    | some e => !(decide (e < now)))

/-- `SqliteStorage.getAllSessionIds()`. -/
def getAllSessionIds (st : SqliteStore) : List String :=
  st.map (·.sessionId)

/-- `SqliteStorage.clearAll()`. -/
def clearAll (_st : SqliteStore) : SqliteStore := []

/-! ## Server-label sanitizer (src/shared/utils.ts) -/

/-- Characters matched by the character class `[a-zA-Z0-9-_]`, i.e. the ones
the first regex pass of `sanitizeServerLabel` leaves alone. -/
def isKeptChar (c : Char) : Bool :=
  c.isAlphanum || c == '-' || c == '_'

/-- The first pass `.replace(/[^a-zA-Z0-9-_]/g, '_')`: every character outside
the class is replaced by an underscore, character by character. -/
def replaceDisallowed (l : List Char) : List Char :=
  l.map (fun c => if isKeptChar c then c else '_')

/-- The second pass `.replace(/_{2,}/g, '_')`: every maximal run of two or
more underscores is collapsed to a single underscore (a lone underscore is
kept as is). -/
def collapseUnderscoreRuns : List Char → List Char
  | [] => []
  | [c] => [c]
  | c₁ :: c₂ :: rest =>
    if c₁ == '_' && c₂ == '_' then collapseUnderscoreRuns (c₂ :: rest)
    else c₁ :: collapseUnderscoreRuns (c₂ :: rest)

/-- The test `/^[a-zA-Z]/.test(s)`. -/
def startsWithLetter : List Char → Bool
  | [] => false
  | c :: _ => c.isAlpha

/-- `sanitizeServerLabel(name)` from src/shared/utils.ts: replace characters
outside `[a-zA-Z0-9-_]` by `_`, collapse runs of underscores, lowercase, and
prepend `s_` when the result does not start with a letter. -/
def sanitizeServerLabel (name : String) : String :=
  let s := (collapseUnderscoreRuns (replaceDisallowed name.data)).map Char.toLower
  if startsWithLetter s then ⟨s⟩ else ⟨'s' :: '_' :: s⟩

/-- The sanitizer as the SPEC sentence describes it, for comparison with the
source function: "lowercased, non-alphanumeric runs collapsed to `_`, forced
to start with a letter".  Every maximal run of non-alphanumeric characters
(which includes `-` and `_`) becomes a single underscore; the forcing
mechanism is taken from the source (prepend `s_`), which the sentence leaves
open. -/
def claimCollapseNonAlnum : List Char → List Char
  | [] => []
  | [c] => if c.isAlphanum then [c] else ['_']
  | c₁ :: c₂ :: rest =>
    if !c₁.isAlphanum && !c₂.isAlphanum then claimCollapseNonAlnum (c₂ :: rest)
    else (if c₁.isAlphanum then c₁ else '_') :: claimCollapseNonAlnum (c₂ :: rest)

/-- The label function the spec sentence denotes (see `claimCollapseNonAlnum`). -/
def claimSanitizeLabel (name : String) : String :=
  let s := (claimCollapseNonAlnum name.data).map Char.toLower
  if startsWithLetter s then ⟨s⟩ else ⟨'s' :: '_' :: s⟩

/-- One-pass scan equivalent to replace-then-collapse, written from the
amended description of the sanitizer: a character in `[a-zA-Z0-9-]` is
emitted as is; a character that is an underscore or outside the class yields
a single `_`, except that no `_` is emitted directly after an emitted `_`.
The boolean argument records whether the previously emitted character was an
underscore. -/
def amendedScan : Bool → List Char → List Char
  | _, [] => []
  | prevU, c :: rest =>
    if isKeptChar c && !(c == '_') then c :: amendedScan false rest
    else if prevU then amendedScan true rest
    else '_' :: amendedScan true rest

/-- The sanitizer as the amended claim describes it: scan (replace each
character outside `[a-zA-Z0-9-_]` by `_` and collapse underscore runs),
lowercase, force a leading letter by prepending `s_`. -/
def amendedSanitizeLabel (name : String) : String :=
  let s := (amendedScan false name.data).map Char.toLower
  if startsWithLetter s then ⟨s⟩ else ⟨'s' :: '_' :: s⟩

/-! ## Adapter tool collection (CopilotKitAdapter, AguiAdapter)

An `MCPClient` is modelled by its observable interface: the value of
`isConnected()`, the value of `getServerId()` and the outcome a call to
`listTools()` would produce.  The adapters are parametric in the client, so a
theorem quantifying over `listToolsResult` expresses that the operation does
not depend on (i.e. never performs) the `listTools` call. -/

/-- Errors an `MCPClient` method can throw. -/
inductive McpError where
  /-- `listTools` called from `DISCONNECTED`/`FAILED`. -/
  | notConnected
  | other (msg : String)
deriving DecidableEq, Repr

/-- One tool as returned by `listTools` (`ToolInfo`); the JSON input schema
is an opaque blob. -/
structure ToolInfo where
  name : String
  description : Option String
  inputSchema : Option String
  meta : Option String
deriving DecidableEq, Repr

/-- The result object of `listTools()`. -/
structure ListToolsResult where
  tools : List ToolInfo
deriving DecidableEq, Repr

/-- Observable model of an `MCPClient` (src/server/mcp/oauth-client.ts is not
part of the embedded core; only the interface the adapters consume is
modelled). -/
structure MCPClient where
  isConnected : Bool
  serverId : Option String
  listToolsResult : Except McpError ListToolsResult

/-- `CopilotKitAdapterOptions` (the optional name prefix). -/
structure CopilotKitAdapterOptions where
  pfx : Option String := none

/-- `AguiAdapterOptions` (the optional name prefix). -/
structure AguiAdapterOptions where
  pfx : Option String := none

/-- The JS expression `tool.description || 'Execute ' + tool.name` (an absent
or empty description falls back). -/
def toolDescription (tool : ToolInfo) : String :=
  match tool.description with
  | some d => if d = "" then "Execute " ++ tool.name else d
  | none => "Execute " ++ tool.name

/-- Opaque blob standing for the literal schema `type object, no properties`
used as a fallback. -/
def defaultSchema : String := "default_object_schema"

/-- `cleanSchema(schema)` at blob granularity: an absent schema becomes the
default object schema; a present one is cleaned (cleaning is not observable
at blob granularity). -/
def cleanSchema (schema : Option String) : String :=
  schema.getD defaultSchema

/-- A `CopilotKitAction`; `handlerTool` records which MCP tool the generated
handler closure invokes via `client.callTool`. -/
structure CopilotKitAction where
  name : String
  description : String
  parameters : String
  handlerTool : String
deriving DecidableEq, Repr

/-- An `AgentTool` (OpenAI-compatible, no handler). -/
structure AgentTool where
  name : String
  description : String
  parameters : String
deriving DecidableEq, Repr

/-- An `AguiTool`; `handlerTool` records which MCP tool the handler invokes. -/
structure AguiTool where
  name : String
  description : String
  parameters : String
  meta : Option String
  handlerTool : String
deriving DecidableEq, Repr

/-- An `AguiToolDefinition` (no handler). -/
structure AguiToolDefinition where
  name : String
  description : String
  parameters : String
  meta : Option String
deriving DecidableEq, Repr

/-- `CopilotKitAdapter.transformTools(client)`: a disconnected client yields
`[]` without `listTools` being called; otherwise the tools of `listTools()`
are turned into actions named `prefix_toolName`. -/
def transformTools (opts : CopilotKitAdapterOptions) (client : MCPClient) :
    Except McpError (List CopilotKitAction) :=
  if !client.isConnected then .ok []
  else
    match client.listToolsResult with
    | .error e => .error e
    | .ok result =>
      let pfx := opts.pfx.getD (client.serverId.getD "mcp")
      .ok (result.tools.map (fun tool =>
        { name := pfx ++ "_" ++ tool.name
          description := toolDescription tool
          parameters := tool.inputSchema.getD defaultSchema
          handlerTool := tool.name }))

/-- `CopilotKitAdapter.transformToolsForAgent(client)`. -/
def transformToolsForAgent (opts : CopilotKitAdapterOptions)
    (client : MCPClient) : Except McpError (List AgentTool) :=
  if !client.isConnected then .ok []
  else
    match client.listToolsResult with
    | .error e => .error e
    | .ok result =>
      let pfx := opts.pfx.getD (client.serverId.getD "mcp")
      .ok (result.tools.map (fun tool =>
        { name := pfx ++ "_" ++ tool.name
          description := toolDescription tool
          parameters := tool.inputSchema.getD defaultSchema }))

/-- `AguiAdapter.transformTools(client)`. -/
def aguiTransformTools (opts : AguiAdapterOptions) (client : MCPClient) :
    Except McpError (List AguiTool) :=
  if !client.isConnected then .ok []
  else
    match client.listToolsResult with
    | .error e => .error e
    | .ok result =>
      let pfx := opts.pfx.getD ("tool_" ++ client.serverId.getD "mcp")
      .ok (result.tools.map (fun tool =>
        { name := pfx ++ "_" ++ tool.name
          description := toolDescription tool
          parameters := cleanSchema tool.inputSchema
          meta := tool.meta
          handlerTool := tool.name }))

/-- `AguiAdapter.transformToolDefinitions(client)`. -/
def aguiTransformToolDefinitions (opts : AguiAdapterOptions)
    (client : MCPClient) : Except McpError (List AguiToolDefinition) :=
  if !client.isConnected then .ok []
  else
    match client.listToolsResult with
    | .error e => .error e
    | .ok result =>
      let pfx := opts.pfx.getD ("tool_" ++ client.serverId.getD "mcp")
      .ok (result.tools.map (fun tool =>
        { name := pfx ++ "_" ++ tool.name
          description := toolDescription tool
          parameters := cleanSchema tool.inputSchema
          meta := tool.meta }))

/-- The multi-session accumulation loop shared by the four collection
operations: transform each client in turn, appending results; a thrown error
propagates. -/
def collectWith {α : Type} (f : MCPClient → Except McpError (List α)) :
    List MCPClient → List α → Except McpError (List α)
  | [], acc => .ok acc
  | c :: rest, acc =>
    match f c with
    | .error e => .error e
    | .ok items => collectWith f rest (acc ++ items)

/-- `CopilotKitAdapter.getActions()` on a multi-session client holding the
given list of live clients. -/
def getActions (opts : CopilotKitAdapterOptions) (clients : List MCPClient) :
    Except McpError (List CopilotKitAction) :=
  collectWith (transformTools opts) clients []

/-- `CopilotKitAdapter.getAgentTools()` on a multi-session client. -/
def getAgentTools (opts : CopilotKitAdapterOptions)
    (clients : List MCPClient) : Except McpError (List AgentTool) :=
  collectWith (transformToolsForAgent opts) clients []

/-- `AguiAdapter.getTools()` on a multi-session client. -/
def aguiGetTools (opts : AguiAdapterOptions) (clients : List MCPClient) :
    Except McpError (List AguiTool) :=
  collectWith (aguiTransformTools opts) clients []

/-- `AguiAdapter.getToolDefinitions()` on a multi-session client. -/
def aguiGetToolDefinitions (opts : AguiAdapterOptions)
    (clients : List MCPClient) : Except McpError (List AguiToolDefinition) :=
  collectWith (aguiTransformToolDefinitions opts) clients []

/-! ## Concrete sample data used by the per-claim witnesses and counterexamples -/

/-- Concrete record used for claim C1. -/
def c1Record : SessionData :=
  { sessionId := "sid1", identity := "u1", serverId := "srv1",
    serverName := "Server One", serverUrl := "http://s1",
    callbackUrl := "http://cb1", transportType := .sse, active := true,
    tokens := none, clientInformation := none }

/-- The row stored for `c1Record` created at time 0 with a 1-second ttl. -/
def c1Row : SessionRow :=
  { sessionId := "sid1", identity := "u1", data := c1Record,
    expiresAt := some 1000 }

/-- Concrete record with `active = false` used for claim C2. -/
def c2Record : SessionData :=
  { sessionId := "sid1", identity := "u1", serverId := "srv1",
    serverName := "Server One", serverUrl := "http://s1",
    callbackUrl := "http://cb1", transportType := .sse, active := false,
    tokens := none, clientInformation := none }

/-- The row `createSession` stores for `c2Record` (no ttl). -/
def c2Row : SessionRow :=
  { sessionId := "sid1", identity := "u1", data := c2Record, expiresAt := none }

/-- JSON-representable record with an empty sessionId, used for claim C3. -/
def c3Record : SessionData :=
  { sessionId := "", identity := "u1", serverId := "srv1",
    serverName := "Server One", serverUrl := "http://s1",
    callbackUrl := "http://cb1", transportType := .sse, active := true,
    tokens := none, clientInformation := none }

/-- Concrete record with nonempty keys, used for the C3 witness. -/
def c3GoodRecord : SessionData :=
  { sessionId := "sid1", identity := "u1", serverId := "srv1",
    serverName := "Server One", serverUrl := "http://s1",
    callbackUrl := "http://cb1", transportType := .streamableHttp,
    active := true, tokens := some "tok", clientInformation := none }

/-- Record with an empty identity but fresh sessionId, used for claim C4. -/
def c4Record : SessionData :=
  { sessionId := "sid9", identity := "", serverId := "srv1",
    serverName := "Server One", serverUrl := "http://s1",
    callbackUrl := "http://cb1", transportType := .sse, active := true,
    tokens := none, clientInformation := none }

/-- Record with nonempty keys used for the C4 witness. -/
def c4GoodRecord : SessionData :=
  { sessionId := "sid9", identity := "u1", serverId := "srv1",
    serverName := "Server One", serverUrl := "http://s1",
    callbackUrl := "http://cb1", transportType := .sse, active := true,
    tokens := none, clientInformation := none }

/-- Stored record used for the C5 and C9 witnesses. -/
def c5Record : SessionData :=
  { sessionId := "sid1", identity := "u1", serverId := "srv1",
    serverName := "Old Name", serverUrl := "http://s1",
    callbackUrl := "http://cb1", transportType := .sse, active := true,
    tokens := none, clientInformation := none }

/-- Row holding `c5Record` with a pending expiry. -/
def c5Row : SessionRow :=
  { sessionId := "sid1", identity := "u1", data := c5Record,
    expiresAt := some 500 }

/-- Patch renaming the server, used for the C5 and C9 witnesses. -/
def c5Patch : SessionPatch := { serverName := some "New Name" }

/-- Disconnected client whose `listTools` would throw NotConnected. -/
def c10Client : MCPClient :=
  { isConnected := false, serverId := none,
    listToolsResult := .error .notConnected }

/-! ## Helper lemmas -/

/-- A filter whose predicate is implied by the search predicate does not
change the result of `find?`. -/
theorem find?_filter_of_imp {α : Type} (p keep : α → Bool) (l : List α)
    (h : ∀ a ∈ l, p a = true → keep a = true) :
    List.find? p (l.filter keep) = List.find? p l := by
  induction l with
  | nil => rfl
  | cons a l ih =>
    have ih' := ih (fun b hb => h b (List.mem_cons_of_mem a hb))
    by_cases hk : keep a = true
    · rw [List.filter_cons_of_pos hk]
      cases hp : p a
      · rw [List.find?_cons_of_neg _ (by simp [hp]),
          List.find?_cons_of_neg _ (by simp [hp]), ih']
      · rw [List.find?_cons_of_pos _ hp, List.find?_cons_of_pos _ hp]
    · have hp : p a = false := by
        cases hpa : p a
        · rfl
        · exact absurd (h a (List.mem_cons_self a l) hpa) hk
      rw [List.filter_cons_of_neg (by simp [hk]), ih',
        List.find?_cons_of_neg _ (by simp [hp])]

/-- `find?` over a mapped list, when the search predicate factors through
the map. -/
theorem find?_map_pred {α β : Type} (f : α → β) (p : β → Bool) (q : α → Bool)
    (l : List α) (h : ∀ a, p (f a) = q a) :
    List.find? p (l.map f) = (List.find? q l).map f := by
  induction l with
  | nil => rfl
  | cons a l ih =>
    cases hq : q a
    · rw [List.map_cons, List.find?_cons_of_neg _ (by rw [h a, hq]; simp),
        List.find?_cons_of_neg _ (by simp [hq]), ih]
    · rw [List.map_cons, List.find?_cons_of_pos _ (by rw [h a, hq]),
        List.find?_cons_of_pos _ hq, Option.map_some']

/-- When no row of the store carries the new sessionId and both key fields
are nonempty, `createSession` succeeds and appends exactly one row. -/
theorem createSession_ok_eq (st : SqliteStore) (now : Nat) (s : SessionData)
    (ttl : Option Nat) (st' : SqliteStore)
    (hsid : s.sessionId ≠ "") (hid : s.identity ≠ "")
    (hdup : ∀ r ∈ st, r.sessionId ≠ s.sessionId)
    (h : createSession st now s ttl = .ok st') :
    st' = st ++ [{ sessionId := s.sessionId, identity := s.identity,
                   data := s, expiresAt := ttlToExpiresAt now ttl }] := by
  have hany : st.any (fun r => r.sessionId == s.sessionId) = false := by
    rw [Bool.eq_false_iff]
    intro hcontra
    obtain ⟨r, hr, hrs⟩ := List.any_eq_true.mp hcontra
    exact hdup r hr (by simpa using hrs)
  rw [createSession, if_neg (by simp [hsid, hid]), hany] at h
  simpa using h.symm

/-- When `getSession` finds a record, `updateSession` succeeds and rewrites
every matching row with the merged record and the freshly computed expiry. -/
theorem updateSession_found_eq (st : SqliteStore) (now : Nat) (u s : String)
    (p : SessionPatch) (ttl : Option Nat) (cur : SessionData)
    (hs : s ≠ "") (hu : u ≠ "") (hcur : getSession st u s = some cur) :
    updateSession st now u s p ttl =
      .ok (st.map (fun r =>
        if rowMatches s u r then
          { r with data := mergeSession cur p,
                   expiresAt := ttlToExpiresAt now ttl }
        else r)) := by
  rw [updateSession, if_neg (by simp [hs, hu]), hcur]

/-- Unfolding equation of `collapseUnderscoreRuns` on two or more heads. -/
theorem collapseU_cons₂ (c₁ c₂ : Char) (rest : List Char) :
    collapseUnderscoreRuns (c₁ :: c₂ :: rest) =
      if c₁ == '_' && c₂ == '_' then collapseUnderscoreRuns (c₂ :: rest)
      else c₁ :: collapseUnderscoreRuns (c₂ :: rest) := rfl

/-- Unfolding equation of `amendedScan` on a head character. -/
theorem amendedScan_cons (b : Bool) (c : Char) (rest : List Char) :
    amendedScan b (c :: rest) =
      if isKeptChar c && !(c == '_') then c :: amendedScan false rest
      else if b then amendedScan true rest
      else '_' :: amendedScan true rest := rfl

/-- The two regex passes of the source equal the single amended scan, both
when no underscore was just emitted and when one was. -/
theorem collapse_replace_eq_scan (l : List Char) :
    collapseUnderscoreRuns (replaceDisallowed l) = amendedScan false l ∧
    collapseUnderscoreRuns ('_' :: replaceDisallowed l) =
      '_' :: amendedScan true l := by
  induction l with
  | nil => exact ⟨rfl, rfl⟩
  | cons c l ih =>
    obtain ⟨ihA, ihB⟩ := ih
    have hrepl : replaceDisallowed (c :: l) =
        (if isKeptChar c then c else '_') :: replaceDisallowed l := rfl
    by_cases h : (isKeptChar c && !(c == '_')) = true
    · have h' := h
      rw [Bool.and_eq_true] at h'
      have hkept : isKeptChar c = true := h'.1
      have hne : (c == '_') = false := by
        cases hcu : (c == '_')
        · rfl
        · rw [hcu] at h'
          exact absurd h'.2 (by decide)
      have hA' : collapseUnderscoreRuns (c :: replaceDisallowed l) =
          amendedScan false (c :: l) := by
        rw [amendedScan_cons, if_pos h]
        cases hl : replaceDisallowed l with
        | nil =>
          have hlnil : l = [] := List.map_eq_nil_iff.mp hl
          subst hlnil
          rfl
        | cons d rest =>
          rw [collapseU_cons₂, if_neg (by simp [hne]), ← hl, ihA]
      constructor
      · rw [hrepl, if_pos hkept, hA']
      · rw [hrepl, if_pos hkept, collapseU_cons₂, if_neg (by simp [hne]),
          hA', amendedScan_cons, if_pos h, amendedScan_cons, if_pos h]
    · have hunder : (if isKeptChar c then c else '_') = '_' := by
        by_cases hk : isKeptChar c = true
        · rw [if_pos hk]
          cases hcu : (c == '_')
          · exact absurd
              (by rw [Bool.and_eq_true]; exact ⟨hk, by rw [hcu]; rfl⟩) h
          · exact eq_of_beq hcu
        · rw [if_neg hk]
      constructor
      · rw [hrepl, hunder, amendedScan_cons, if_neg h, ihB]
        rfl
      · rw [hrepl, hunder, collapseU_cons₂, if_pos (by decide), ihB,
          amendedScan_cons, if_neg h]
        rfl

/-- The multi-session accumulation skips a client whose transform yields the
empty list, whatever the accumulator and the surrounding clients. -/
theorem collectWith_skip {α : Type} (f : MCPClient → Except McpError (List α))
    (c : MCPClient) (hc : f c = .ok []) (l₁ l₂ : List MCPClient)
    (acc : List α) :
    collectWith f (l₁ ++ c :: l₂) acc = collectWith f (l₁ ++ l₂) acc := by
  induction l₁ generalizing acc with
  | nil =>
    rw [List.nil_append, List.nil_append, collectWith, hc]
    show collectWith f l₂ (acc ++ []) = collectWith f l₂ acc
    rw [List.append_nil]
  | cons a l ih =>
    rw [List.cons_append, List.cons_append, collectWith, collectWith]
    cases f a with
    | error e => rfl
    | ok items => exact ih (acc ++ items)

/-! ## Claims C1 to C10 -/

/-- C1 counterexample: a record created at time 0 with `ttlSeconds = 1` is
still returned by `getSession` and by `getIdentitySessionsData` when no
cleanup has run.  The embedded `getSession` takes no time input because the
source `SELECT` carries no condition on `expiresAt`, so the same record is
returned at every read time, in particular more than 1 second after
creation. -/
theorem getSession_returns_expired :
    createSession [] 0 c1Record (some 1) = .ok [c1Row] ∧
    getSession [c1Row] "u1" "sid1" = some c1Record ∧
    getIdentitySessionsData [c1Row] "u1" = [c1Record] :=
  ⟨rfl, rfl, rfl⟩

/-- C1 amended: an expired record stays readable until cleanup; once
`cleanupExpiredSessions` runs at a time more than `ttl` seconds after
creation, `getSession` returns null and `getIdentitySessionsData` no longer
includes the record. -/
theorem expired_unreachable_after_cleanup (st st' : SqliteStore)
    (c now t : Nat) (s : SessionData)
    (ht : t ≠ 0) (hsid : s.sessionId ≠ "") (hid : s.identity ≠ "")
    (hdup : ∀ r ∈ st, r.sessionId ≠ s.sessionId)
    (hnotin : s ∉ getIdentitySessionsData st s.identity)
    (h : createSession st c s (some t) = .ok st')
    (hlate : c + t * 1000 < now) :
    getSession (cleanupExpiredSessions st' now) s.identity s.sessionId = none ∧
    s ∉ getIdentitySessionsData (cleanupExpiredSessions st' now) s.identity := by
  have hst' := createSession_ok_eq st c s (some t) st' hsid hid hdup h
  have hexp : ttlToExpiresAt c (some t) = some (c + t * 1000) := by
    rw [ttlToExpiresAt, if_neg ht]
  subst hst'
  rw [cleanupExpiredSessions, List.filter_append]
  have hdrop :
      List.filter
        (fun (r : SessionRow) => match r.expiresAt with
          | none => true
          | some e => !(decide (e < now)))
        [{ sessionId := s.sessionId, identity := s.identity, data := s,
           expiresAt := ttlToExpiresAt c (some t) }] = [] := by
    simp [List.filter, hexp, hlate]
  rw [hdrop, List.append_nil]
  constructor
  · rw [getSession, Option.map_eq_none', List.find?_eq_none]
    intro r hr hm
    rw [List.mem_filter] at hr
    rw [rowMatches, Bool.and_eq_true] at hm
    exact hdup r hr.1 (by simpa using hm.1)
  · intro hmem
    apply hnotin
    rw [getIdentitySessionsData] at hmem ⊢
    obtain ⟨r, hr, hrdata⟩ := List.mem_map.mp hmem
    rw [List.filter_filter] at hr
    rw [List.mem_filter] at hr
    refine List.mem_map.mpr ⟨r, List.mem_filter.mpr ⟨hr.1, ?_⟩, hrdata⟩
    have hr2 := hr.2
    rw [Bool.and_eq_true] at hr2
    exact hr2.1

/-- Witness for the amended C1 theorem: created at time 0 with ttl 1 second,
cleaned up at time 2000 ms. -/
theorem expired_unreachable_after_cleanup_witness :
    (1 : Nat) ≠ 0 ∧ c1Record.sessionId ≠ "" ∧ c1Record.identity ≠ "" ∧
    (∀ r ∈ ([] : SqliteStore), r.sessionId ≠ c1Record.sessionId) ∧
    c1Record ∉ getIdentitySessionsData [] c1Record.identity ∧
    createSession [] 0 c1Record (some 1) = .ok [c1Row] ∧
    0 + 1 * 1000 < 2000 ∧
    getSession (cleanupExpiredSessions [c1Row] 2000) c1Record.identity
      c1Record.sessionId = none ∧
    c1Record ∉
      getIdentitySessionsData (cleanupExpiredSessions [c1Row] 2000)
        c1Record.identity :=
  ⟨by decide, by decide, by decide, (by intro r hr; cases hr),
    (by intro hmem; cases hmem), rfl, by decide,
    (expired_unreachable_after_cleanup [] [c1Row] 0 2000 1 c1Record
      (by decide) (by decide) (by decide) (by intro r hr; cases hr)
      (by intro hmem; cases hmem) rfl (by decide)).1,
    (expired_unreachable_after_cleanup [] [c1Row] 0 2000 1 c1Record
      (by decide) (by decide) (by decide) (by intro r hr; cases hr)
      (by intro hmem; cases hmem) rfl (by decide)).2⟩

/-- C2 counterexample: an inactive record, stored via `createSession`, is
returned by `getIdentitySessionsData` while it physically exists. -/
theorem getIdentitySessionsData_returns_inactive :
    createSession [] 0 c2Record none = .ok [c2Row] ∧
    c2Record.active = false ∧
    getIdentitySessionsData [c2Row] "u1" = [c2Record] :=
  ⟨rfl, rfl, rfl⟩

/-- C2 amended: `getIdentitySessionsData` returns the data of every stored
row with the requested identity, regardless of the record's `active` flag;
inactive records are filtered by the aggregator, not by the storage layer. -/
theorem getIdentitySessionsData_ignores_active (st : SqliteStore) (u : String)
    (row : SessionRow) (hmem : row ∈ st) (hid : row.identity = u) :
    row.data ∈ getIdentitySessionsData st u := by
  rw [getIdentitySessionsData]
  exact List.mem_map_of_mem _ (List.mem_filter.mpr ⟨hmem, by simp [hid]⟩)

/-- Witness for the amended C2 theorem at the store `[c2Row]`. -/
theorem getIdentitySessionsData_ignores_active_witness :
    c2Row ∈ [c2Row] ∧ c2Row.identity = "u1" ∧
    c2Row.data ∈ getIdentitySessionsData [c2Row] "u1" :=
  ⟨List.mem_singleton.mpr rfl, rfl,
    getIdentitySessionsData_ignores_active [c2Row] "u1" c2Row
      (List.mem_singleton.mpr rfl) rfl⟩

/-- C3 counterexample: for the JSON-representable record `c3Record`, whose
sessionId (the empty string) is not stored, `createSession` throws the
required-fields error instead of inserting, and the subsequent `getSession`
returns null rather than a record deep-equal to `c3Record`. -/
theorem createSession_roundtrip_counterexample :
    createSession [] 0 c3Record none = .error .requiredFields ∧
    getSession [] c3Record.identity c3Record.sessionId = none ∧
    (none : Option SessionData) ≠ some c3Record :=
  ⟨rfl, rfl, by decide⟩

/-- C3 amended: for every record whose sessionId and identity are nonempty
and whose sessionId is not already stored, `createSession` succeeds and the
subsequent `getSession` returns a record deep-equal to the one stored. -/
theorem createSession_getSession_roundtrip (st : SqliteStore) (now : Nat)
    (s : SessionData) (ttl : Option Nat) (st' : SqliteStore)
    (hsid : s.sessionId ≠ "") (hid : s.identity ≠ "")
    (hdup : ∀ r ∈ st, r.sessionId ≠ s.sessionId)
    (h : createSession st now s ttl = .ok st') :
    getSession st' s.identity s.sessionId = some s := by
  rw [createSession_ok_eq st now s ttl st' hsid hid hdup h]
  rw [getSession, List.find?_append]
  have h1 : List.find? (rowMatches s.sessionId s.identity) st = none := by
    rw [List.find?_eq_none]
    intro r hr hmatch
    rw [rowMatches, Bool.and_eq_true] at hmatch
    exact hdup r hr (by simpa using hmatch.1)
  rw [h1]
  simp [rowMatches]

/-- Witness for the amended C3 theorem on the empty store. -/
theorem createSession_getSession_roundtrip_witness :
    c3GoodRecord.sessionId ≠ "" ∧ c3GoodRecord.identity ≠ "" ∧
    (∀ r ∈ ([] : SqliteStore), r.sessionId ≠ c3GoodRecord.sessionId) ∧
    createSession [] 0 c3GoodRecord none =
      .ok [{ sessionId := "sid1", identity := "u1", data := c3GoodRecord,
             expiresAt := none }] ∧
    getSession [{ sessionId := "sid1", identity := "u1", data := c3GoodRecord,
                  expiresAt := none }] "u1" "sid1" = some c3GoodRecord :=
  ⟨by decide, by decide, (by intro r hr; cases hr), rfl,
    createSession_getSession_roundtrip [] 0 c3GoodRecord none _
      (by decide) (by decide) (by intro r hr; cases hr) rfl⟩

/-- C4 counterexample: no record with sessionId "sid9" exists in the empty
store, yet `createSession` neither inserts the record nor succeeds: the empty
identity is rejected with the required-fields error, which is not the
duplicate-session error. -/
theorem createSession_duplicate_counterexample :
    ([] : SqliteStore).any (fun r => r.sessionId == c4Record.sessionId)
      = false ∧
    createSession [] 0 c4Record none = .error .requiredFields ∧
    StorageError.requiredFields ≠ .duplicateSession "sid9" :=
  ⟨rfl, rfl, by decide⟩

/-- C4 amended: for a record with nonempty sessionId and identity,
`createSession` fails with the duplicate-session error exactly when a row
with the same sessionId already exists (on that failure no store is produced,
so the stored sessions are unchanged), and otherwise appends the new row. -/
theorem createSession_duplicate_iff (st : SqliteStore) (now : Nat)
    (s : SessionData) (ttl : Option Nat)
    (hsid : s.sessionId ≠ "") (hid : s.identity ≠ "") :
    (st.any (fun r => r.sessionId == s.sessionId) = true →
      createSession st now s ttl = .error (.duplicateSession s.sessionId)) ∧
    (st.any (fun r => r.sessionId == s.sessionId) = false →
      createSession st now s ttl =
        .ok (st ++ [{ sessionId := s.sessionId, identity := s.identity,
                      data := s, expiresAt := ttlToExpiresAt now ttl }])) := by
  constructor
  · intro hdup
    rw [createSession, if_neg (by simp [hsid, hid]), hdup]
    rfl
  · intro hfresh
    rw [createSession, if_neg (by simp [hsid, hid]), hfresh]
    rfl

/-- Witness for the amended C4 theorem on a store already holding the
sessionId "sid9" (the duplicate branch applies). -/
theorem createSession_duplicate_iff_witness :
    c4GoodRecord.sessionId ≠ "" ∧ c4GoodRecord.identity ≠ "" ∧
    (([{ sessionId := "sid9", identity := "u2", data := c4GoodRecord,
         expiresAt := none }] : SqliteStore).any
      (fun r => r.sessionId == c4GoodRecord.sessionId) = true) ∧
    createSession [{ sessionId := "sid9", identity := "u2",
                     data := c4GoodRecord, expiresAt := none }] 0
        c4GoodRecord none = .error (.duplicateSession "sid9") :=
  ⟨by decide, by decide, by decide,
    (createSession_duplicate_iff _ 0 c4GoodRecord none
      (by decide) (by decide)).1 (by decide)⟩

/-- C5 counterexample: with an empty session id (for which certainly no
record exists), `updateSession` fails with the required-fields error, not
with the not-found error the claim prescribes for every missing record. -/
theorem updateSession_notfound_counterexample :
    getSession [] "u1" "" = none ∧
    updateSession [] 0 "u1" "" {} none = .error .requiredFields ∧
    StorageError.requiredFields ≠ .notFound "" "u1" :=
  ⟨rfl, rfl, by decide⟩

/-- C5 amended: for nonempty identity and session id, `updateSession` fails
with not-found exactly when `getSession` finds no record for the pair; when a
record exists it rewrites the matching row with the shallow merge of the
current record overwritten by the patch, and with an expiry of
`now + ttl * 1000` when a nonzero ttl is provided (null otherwise). -/
theorem updateSession_spec (st : SqliteStore) (now : Nat) (u s : String)
    (p : SessionPatch) (ttl : Option Nat)
    (hs : s ≠ "") (hu : u ≠ "") :
    (getSession st u s = none →
      updateSession st now u s p ttl = .error (.notFound s u)) ∧
    (∀ cur, getSession st u s = some cur →
      updateSession st now u s p ttl =
        .ok (st.map (fun r =>
          if rowMatches s u r then
            { r with data := mergeSession cur p,
                     expiresAt := ttlToExpiresAt now ttl }
          else r))) := by
  constructor
  · intro hnone
    rw [updateSession, if_neg (by simp [hs, hu]), hnone]
  · intro cur hcur
    exact updateSession_found_eq st now u s p ttl cur hs hu hcur

/-- Witness for the amended C5 theorem: updating the stored record with a
5-second ttl at time 100 rewrites the row with the merged record and expiry
5100. -/
theorem updateSession_spec_witness :
    ("sid1" : String) ≠ "" ∧ ("u1" : String) ≠ "" ∧
    getSession [c5Row] "u1" "sid1" = some c5Record ∧
    updateSession [c5Row] 100 "u1" "sid1" c5Patch (some 5) =
      .ok [{ sessionId := "sid1", identity := "u1",
             data := mergeSession c5Record c5Patch,
             expiresAt := some 5100 }] :=
  ⟨by decide, by decide, rfl,
    (updateSession_spec [c5Row] 100 "u1" "sid1" c5Patch (some 5)
      (by decide) (by decide)).2 c5Record rfl⟩

/-- C6: for every identity and session id, removing twice raises no error
(the operation is total), and after each call `getSession` returns null. -/
theorem removeSession_idempotent (st : SqliteStore) (u s : String) :
    getSession (removeSession st u s) u s = none ∧
    removeSession (removeSession st u s) u s = removeSession st u s ∧
    getSession (removeSession (removeSession st u s) u s) u s = none := by
  have h1 : getSession (removeSession st u s) u s = none := by
    rw [getSession, Option.map_eq_none', List.find?_eq_none]
    intro r hr
    rw [removeSession, List.mem_filter] at hr
    simpa using hr.2
  have h2 : removeSession (removeSession st u s) u s = removeSession st u s := by
    simp only [removeSession, List.filter_filter, Bool.and_self]
  exact ⟨h1, h2, by rw [h2, h1]⟩

/-- C7 counterexample: on the input "my-server" the source sanitizer keeps
the hyphen (a non-alphanumeric character), whereas the claimed description
(non-alphanumeric runs collapsed to a single underscore) yields
"my_server". -/
theorem sanitizeServerLabel_counterexample :
    sanitizeServerLabel "my-server" = "my-server" ∧
    claimSanitizeLabel "my-server" = "my_server" ∧
    sanitizeServerLabel "my-server" ≠ claimSanitizeLabel "my-server" :=
  ⟨rfl, rfl, by decide⟩

/-- C7 amended: the sanitizer lowercases, replaces every character outside
`[a-zA-Z0-9-_]` by an underscore while collapsing each run of resulting
underscores to one (hyphens and existing single underscores are preserved),
and prepends `s_` when the result does not start with a letter. -/
theorem sanitizeServerLabel_eq_amended (name : String) :
    sanitizeServerLabel name = amendedSanitizeLabel name := by
  rw [sanitizeServerLabel, amendedSanitizeLabel,
    (collapse_replace_eq_scan name.data).1]

/-- C8: the sanitized labels of "My Server" and "my-server" are distinct
("My Server" maps to "my_server" while "my-server" keeps its hyphen). -/
theorem sanitizeServerLabel_distinct :
    sanitizeServerLabel "My Server" = "my_server" ∧
    sanitizeServerLabel "my-server" = "my-server" ∧
    sanitizeServerLabel "My Server" ≠ sanitizeServerLabel "my-server" :=
  ⟨rfl, rfl, by decide⟩

/-- C9: updating an existing record without a ttl argument writes a null
expiry: every matching row of the resulting store has `expiresAt = null`, so
at every time `t` the record survives `cleanupExpiredSessions` and is still
returned by `getSession` — the previous ttl is not preserved and the updated
record never expires. -/
theorem updateSession_without_ttl_never_expires (st : SqliteStore)
    (now : Nat) (u s : String) (p : SessionPatch) (cur : SessionData)
    (hs : s ≠ "") (hu : u ≠ "")
    (hcur : getSession st u s = some cur) :
    ∃ st', updateSession st now u s p none = .ok st' ∧
      (∀ r ∈ st', rowMatches s u r = true → r.expiresAt = none) ∧
      ∀ t, getSession (cleanupExpiredSessions st' t) u s =
        some (mergeSession cur p) := by
  refine ⟨_, updateSession_found_eq st now u s p none cur hs hu hcur, ?_, ?_⟩
  all_goals
    have hfix : ∀ r : SessionRow,
        rowMatches s u (if rowMatches s u r then
          { r with data := mergeSession cur p,
                   expiresAt := ttlToExpiresAt now none }
        else r) = rowMatches s u r := by
      intro r
      by_cases h0 : rowMatches s u r = true
      · rw [if_pos h0, h0, rowMatches]
        rw [rowMatches] at h0
        exact h0
      · rw [if_neg h0]
  · intro r hr hm
    obtain ⟨r0, hr0, rfl⟩ := List.mem_map.mp hr
    rw [hfix r0] at hm
    rw [if_pos hm]
    rfl
  · intro t
    rw [cleanupExpiredSessions, getSession, find?_filter_of_imp]
    · rw [find?_map_pred _ (rowMatches s u) (rowMatches s u) st hfix]
      rw [getSession] at hcur
      obtain ⟨r0, hr0, hr0data⟩ := Option.map_eq_some'.mp hcur
      rw [hr0, Option.map_some', Option.map_some',
        if_pos (List.find?_some hr0)]
    · intro a ha hma
      obtain ⟨r0, hr0, rfl⟩ := List.mem_map.mp ha
      rw [hfix r0] at hma
      rw [if_pos hma]
      rfl

/-- Witness for the C9 theorem: the stored row with expiry 500 is updated
with no ttl; the resulting row has null expiry and survives cleanup at every
time. -/
theorem updateSession_without_ttl_never_expires_witness :
    ("sid1" : String) ≠ "" ∧ ("u1" : String) ≠ "" ∧
    getSession [c5Row] "u1" "sid1" = some c5Record ∧
    (∃ st', updateSession [c5Row] 100 "u1" "sid1" c5Patch none = .ok st' ∧
      (∀ r ∈ st', rowMatches "sid1" "u1" r = true → r.expiresAt = none) ∧
      ∀ t, getSession (cleanupExpiredSessions st' t) "u1" "sid1" =
        some (mergeSession c5Record c5Patch)) :=
  ⟨by decide, by decide, rfl,
    updateSession_without_ttl_never_expires [c5Row] 100 "u1" "sid1" c5Patch
      c5Record (by decide) (by decide) rfl⟩

/-- C10: a disconnected client contributes the empty list to every adapter
tool-collection operation.  The theorem is quantified over the client's
`listToolsResult`, so the outcome a `listTools` call would have (including a
NotConnected failure) never influences the result: the call is not made. -/
theorem adapters_skip_disconnected (c : MCPClient)
    (hc : c.isConnected = false)
    (opts : CopilotKitAdapterOptions) (aopts : AguiAdapterOptions)
    (l₁ l₂ : List MCPClient) :
    transformTools opts c = .ok [] ∧
    transformToolsForAgent opts c = .ok [] ∧
    aguiTransformTools aopts c = .ok [] ∧
    aguiTransformToolDefinitions aopts c = .ok [] ∧
    getActions opts (l₁ ++ c :: l₂) = getActions opts (l₁ ++ l₂) ∧
    getAgentTools opts (l₁ ++ c :: l₂) = getAgentTools opts (l₁ ++ l₂) ∧
    aguiGetTools aopts (l₁ ++ c :: l₂) = aguiGetTools aopts (l₁ ++ l₂) ∧
    aguiGetToolDefinitions aopts (l₁ ++ c :: l₂) =
      aguiGetToolDefinitions aopts (l₁ ++ l₂) := by
  have h1 : transformTools opts c = .ok [] := by
    rw [transformTools, hc]
    rfl
  have h2 : transformToolsForAgent opts c = .ok [] := by
    rw [transformToolsForAgent, hc]
    rfl
  have h3 : aguiTransformTools aopts c = .ok [] := by
    rw [aguiTransformTools, hc]
    rfl
  have h4 : aguiTransformToolDefinitions aopts c = .ok [] := by
    rw [aguiTransformToolDefinitions, hc]
    rfl
  exact ⟨h1, h2, h3, h4,
    collectWith_skip _ c h1 l₁ l₂ [],
    collectWith_skip _ c h2 l₁ l₂ [],
    collectWith_skip _ c h3 l₁ l₂ [],
    collectWith_skip _ c h4 l₁ l₂ []⟩

/-- Witness for the C10 theorem at a concrete disconnected client whose
`listTools` call would fail with NotConnected. -/
theorem adapters_skip_disconnected_witness :
    c10Client.isConnected = false ∧
    (transformTools {} c10Client = .ok [] ∧
     transformToolsForAgent {} c10Client = .ok [] ∧
     aguiTransformTools {} c10Client = .ok [] ∧
     aguiTransformToolDefinitions {} c10Client = .ok [] ∧
     getActions {} ([] ++ c10Client :: []) = getActions {} ([] ++ []) ∧
     getAgentTools {} ([] ++ c10Client :: []) = getAgentTools {} ([] ++ []) ∧
     aguiGetTools {} ([] ++ c10Client :: []) = aguiGetTools {} ([] ++ []) ∧
     aguiGetToolDefinitions {} ([] ++ c10Client :: []) =
       aguiGetToolDefinitions {} ([] ++ [])) :=
  ⟨rfl, adapters_skip_disconnected c10Client rfl {} {} [] []⟩
